import Mathlib

/-!
Shallow embedding of the ARM11 emulator core (src/src/main.rs).

Machine integers (Rust `u32`) are modelled as `ℕ`, reduced `% 2 ^ 32`
exactly where the Rust arithmetic wraps.  The emulator is an ordinary
(release-built) binary, so overflowing `+`, `-`, `*` wrap to two's
complement, and the amount of a `<<` / `>>` is masked to its low five
bits; both behaviours are made explicit below (`wadd`, `wsub`, `shl32`,
`shr32`, `mask32`).  Where a claim is specifically about the
shift-width-overflow fault itself, a separate checked (`Option`-valued)
version of the arithmetic is used.

Rust sources that diverge (`panic!` / `fatal`, which prints the state and
aborts) are modelled as `Option`-valued functions returning `none`.
Console logging done by the single-data-transfer executor is modelled by
a returned list of `LogEvent`s.
-/

namespace Arm11

/- condition codes (src lines 5-11); GE, LT, GT, LE are kept as the
   literals 10, 11, 12, 13 below because those names are core order
   classes in Lean -/
def EQ : ℕ := 0
def NE : ℕ := 1
def AL : ℕ := 14

/- opcodes (src lines 14-23) -/
def AND : ℕ := 0
def EOR : ℕ := 1
def SUB : ℕ := 2
def RSB : ℕ := 3
def ADD : ℕ := 4
def TST : ℕ := 8
def TEQ : ℕ := 9
def CMP : ℕ := 10
def ORR : ℕ := 12
def MOV : ℕ := 13

/- register alias (src line 26) -/
def PC : ℕ := 15

/- memory size in bytes (src line 29) -/
def MEMSIZE : ℕ := 0x8000

/-- Rust (release mode) masks the amount of a 32-bit shift to its low
five bits. -/
def mask32 (n : ℕ) : ℕ := n % 32

/-- `get_bits` (src line 36): `(data >> start) & ((1 << n) - 1)` on u32. -/
def get_bits (data start n : ℕ) : ℕ :=
  (data >>> mask32 start) % 2 ^ mask32 n

/-- `get_bit` (src line 43): `(data >> n) & 1 != 0` on u32. -/
def get_bit (data n : ℕ) : Bool :=
  (data >>> mask32 n) % 2 == 1

/-- wrapping u32 addition -/
def wadd (a b : ℕ) : ℕ := (a + b) % 2 ^ 32

/-- wrapping u32 subtraction -/
def wsub (a b : ℕ) : ℕ := (a + (2 ^ 32 - b % 2 ^ 32)) % 2 ^ 32

/-- u32 `<<` with the release-mode masked amount -/
def shl32 (a b : ℕ) : ℕ := (a <<< mask32 b) % 2 ^ 32

/-- u32 `>>` with the release-mode masked amount -/
def shr32 (a b : ℕ) : ℕ := a >>> mask32 b

/-- reinterpret a u32 bit pattern as an `i32` (`as i32`). -/
def toI32 (a : ℕ) : ℤ := if a % 2 ^ 32 < 2 ^ 31 then (a % 2 ^ 32 : ℤ) else (a % 2 ^ 32 : ℤ) - 2 ^ 32

/-- wrap an integer into i32 two's-complement range (release-mode i32 overflow). -/
def wrapI32 (x : ℤ) : ℤ := (x + 2 ^ 31) % 2 ^ 32 - 2 ^ 31

/-- `(base as i32 + offset) as u32`, as a natural number below `2 ^ 32`. -/
def addU32 (base : ℕ) (off : ℤ) : ℕ := ((toI32 base + off) % 2 ^ 32).toNat

/-- `Cpsr` (src lines 54-59). -/
structure Cpsr where
  n : Bool
  z : Bool
  c : Bool
  v : Bool
deriving Repr, DecidableEq

/-- `CPU` (src lines 61-65): 16 registers, flags, and a byte memory.
The byte buffer is modelled as a total function from byte addresses to
byte values (little-endian host, as on the machines the emulator
targets). -/
structure CPU where
  registers : Fin 16 → ℕ
  cpsr : Cpsr
  memory : ℕ → ℕ

/-- register numbers are 4-bit fields; the Rust array index is modelled
with an explicit `% 16`. -/
def regFin (r : ℕ) : Fin 16 := ⟨r % 16, Nat.mod_lt r (by norm_num)⟩

/-- `get_register` (src line 95). -/
def CPU.get_register (cpu : CPU) (reg : ℕ) : ℕ := cpu.registers (regFin reg)

/-- `set_register` (src line 100). -/
def CPU.set_register (cpu : CPU) (reg v : ℕ) : CPU :=
  { cpu with registers := Function.update cpu.registers (regFin reg) v }

/-- `get_mem_word` (src line 104): native(little)-endian 4-byte load. -/
def CPU.get_mem_word (cpu : CPU) (loc : ℕ) : ℕ :=
  cpu.memory loc + 2 ^ 8 * cpu.memory (loc + 1) +
    2 ^ 16 * cpu.memory (loc + 2) + 2 ^ 24 * cpu.memory (loc + 3)

/-- `set_mem_word` (src line 113): native(little)-endian 4-byte store. -/
def CPU.set_mem_word (cpu : CPU) (loc v : ℕ) : CPU :=
  { cpu with memory := fun a =>
      if a = loc then v % 2 ^ 8
      else if a = loc + 1 then v / 2 ^ 8 % 2 ^ 8
      else if a = loc + 2 then v / 2 ^ 16 % 2 ^ 8
      else if a = loc + 3 then v / 2 ^ 24 % 2 ^ 8
      else cpu.memory a }

/-- console messages printed by the single-data-transfer executor. -/
inductive LogEvent where
  | gpioAccess (lo hi : ℕ)
  | pinOn
  | pinOff
  | outOfBounds (addr : ℕ)
deriving Repr, DecidableEq

/-- `check_condition` (src lines 189-200).  Note that the Rust `match`
scrutinee is `*instruction`: the whole 32-bit word is compared against
the condition-code constants, not its bits 28-31. -/
def check_condition (cpu : CPU) (instruction : ℕ) : Bool :=
  if instruction = EQ then cpu.cpsr.z
  else if instruction = NE then !cpu.cpsr.z
  else if instruction = 10 then cpu.cpsr.n == cpu.cpsr.v
  else if instruction = 11 then cpu.cpsr.n != cpu.cpsr.v
  else if instruction = 12 then !cpu.cpsr.z && (cpu.cpsr.n == cpu.cpsr.v)
  else if instruction = 13 then cpu.cpsr.z || (cpu.cpsr.n != cpu.cpsr.v)
  else if instruction = AL then true
  else false

/-- `branch_instruction` (src lines 181-186).  The result of
`(get_bits(instruction, 0, 23) - if bit23 {0x800001} else {1}) << 2`
is written to register 14, and the program counter is not read. -/
def branch_instruction (cpu : CPU) (instruction : ℕ) : CPU :=
  cpu.set_register 14
    (shl32 (wsub (get_bits instruction 0 23)
      (if get_bit instruction 23 then 0x800001 else 1)) 2)

/-- `shift_operation` (src lines 202-242).  `none` models `fatal`. -/
def shift_operation (cpu : CPU) (instruction : ℕ) : Option (ℕ × Bool) :=
  let rm := get_bits instruction 0 4
  if rm = PC then none
  else
    let rm_value := cpu.get_register rm
    let shift_amount? : Option ℕ :=
      if get_bit instruction 4 = false then some (get_bits instruction 7 5)
      else if get_bit instruction 7 = false then
        some (cpu.get_register (get_bits instruction 8 4))
      else none
    match shift_amount? with
    | none => none
    | some shift_amount =>
      if shift_amount = 0 then some (rm_value, false)
      else
        match get_bit instruction 6, get_bit instruction 5 with
        | false, false =>
            some (shl32 rm_value shift_amount,
              get_bit rm_value (wsub 32 shift_amount))
        | false, true =>
            some (shr32 rm_value shift_amount,
              get_bit rm_value (shift_amount - 1))
        | true, false =>
            some (shr32 rm_value shift_amount |||
                (if get_bit rm_value 31 then shl32 0xFFFFFFFF (wsub 32 shift_amount) else 0),
              get_bit rm_value (shift_amount - 1))
        | true, true =>
            some (shr32 rm_value shift_amount |||
                shl32 (get_bits rm_value 0 shift_amount) (wsub 32 shift_amount),
              get_bit rm_value (shift_amount - 1))

/-- operand-2 resolution inside `process_data_instruction`
(src lines 309-313). -/
def operand_2 (cpu : CPU) (instruction : ℕ) : Option (ℕ × Bool) :=
  if get_bit instruction 25 then
    let rotate := get_bits instruction 8 4 <<< 1
    let immediate := get_bits instruction 0 8
    some ((immediate >>> rotate) ||| shl32 (get_bits immediate 0 rotate) (wsub 32 rotate),
      if 0 < rotate then get_bit immediate (rotate - 1) else false)
  else shift_operation cpu instruction

/-- the ALU `match opcode` of `process_data_instruction`
(src lines 315-324); `none` models the unknown-opcode `fatal`. -/
def alu_result (rn_val operand_2_value opcode : ℕ) : Option ℕ :=
  if opcode = TST ∨ opcode = AND then some (rn_val &&& operand_2_value)
  else if opcode = TEQ ∨ opcode = EOR then some (rn_val ^^^ operand_2_value)
  else if opcode = CMP ∨ opcode = SUB then some (wsub rn_val operand_2_value)
  else if opcode = RSB then some (wsub operand_2_value rn_val)
  else if opcode = ADD then some (wadd rn_val operand_2_value)
  else if opcode = ORR then some (rn_val ||| operand_2_value)
  else if opcode = MOV then some operand_2_value
  else none

/-- `process_data_instruction` (src lines 301-338). -/
def process_data_instruction (cpu : CPU) (instruction : ℕ) : Option CPU :=
  let opcode := get_bits instruction 21 4
  let rd_reg := get_bits instruction 12 4
  let rn_val := cpu.get_register (get_bits instruction 16 4)
  let s := get_bit instruction 20
  match operand_2 cpu instruction with
  | none => none
  | some (operand_2_value, carryout) =>
    match alu_result rn_val operand_2_value opcode with
    | none => none
    | some result =>
      let cpu1 := if opcode ≠ CMP ∧ opcode ≠ TEQ ∧ opcode ≠ TST then
          cpu.set_register rd_reg result else cpu
      if s then
        some { cpu1 with cpsr :=
          { n := get_bit result 31
            z := result == 0
            c :=
              if opcode = AND ∨ opcode = EOR ∨ opcode = ORR ∨
                 opcode = TEQ ∨ opcode = TST ∨ opcode = MOV then carryout
              else if opcode = ADD ∨ opcode = RSB then
                (get_bit rn_val 31 || get_bit operand_2_value 31) && !get_bit result 31
              else decide (operand_2_value ≤ rn_val)
            v := cpu1.cpsr.v } }
      else some cpu1

/-- the offset computation of `single_data_transfer_instruction`
(src lines 255-258), as a signed value; `none` models the two `fatal`
paths reachable from it. -/
def transfer_offset (cpu : CPU) (instruction : ℕ) : Option ℤ :=
  let rd_reg := get_bits instruction 12 4
  let i := get_bit instruction 25
  let p := get_bit instruction 24
  let u := get_bit instruction 23
  let magnitude? : Option ℕ :=
    if i then
      if cpu.get_register (get_bits instruction 0 4) = rd_reg ∧ p = false then none
      else (shift_operation cpu instruction).map Prod.fst
    else some (get_bits instruction 0 12)
  magnitude?.map fun m => wrapI32 (toI32 m * (if u = false then -1 else 1))

/-- the effective memory address of a single data transfer
(src lines 260-266): `base + offset` when pre-indexed, the unmodified
base when post-indexed. -/
def transfer_memloc (cpu : CPU) (instruction : ℕ) : Option ℕ :=
  (transfer_offset cpu instruction).map fun offset =>
    if get_bit instruction 24 then
      addU32 (cpu.get_register (get_bits instruction 16 4)) offset
    else cpu.get_register (get_bits instruction 16 4)

/-- the memory/GPIO access of `single_data_transfer_instruction`
(src lines 268-277), acting on the state after any post-index
write-back. -/
def transfer_access (cpu : CPU) (memloc rd_reg : ℕ) (l : Bool) : CPU × List LogEvent :=
  if memloc = 0x20200008 ∨ memloc = 0x20200004 ∨ memloc = 0x20200000 then
    let region := ((memloc &&& 0xF) >>> 2) * 10
    (if l then cpu.set_register rd_reg memloc else cpu,
      [LogEvent.gpioAccess region (region + 9)])
  else if memloc = 0x20200028 ∧ l = false then (cpu, [LogEvent.pinOff])
  else if memloc = 0x2020001C ∧ l = false then (cpu, [LogEvent.pinOn])
  else if memloc < MEMSIZE - 4 then
    (if l then cpu.set_register rd_reg (cpu.get_mem_word memloc)
     else cpu.set_mem_word memloc (cpu.get_register rd_reg), [])
  else (cpu, [LogEvent.outOfBounds memloc])

/-- `single_data_transfer_instruction` (src lines 244-278).  `none`
models the `fatal` paths; the returned list holds the console messages
printed by the access. -/
def single_data_transfer_instruction (cpu : CPU) (instruction : ℕ) :
    Option (CPU × List LogEvent) :=
  let rn_reg := get_bits instruction 16 4
  let rd_reg := get_bits instruction 12 4
  let p := get_bit instruction 24
  let l := get_bit instruction 20
  if PC = rd_reg then none
  else
    (transfer_offset cpu instruction).map fun offset =>
      let base := cpu.get_register rn_reg
      if p then transfer_access cpu (addU32 base offset) rd_reg l
      else transfer_access (cpu.set_register rn_reg (addU32 base offset)) base rd_reg l

/-- checked u32 `<<`: `none` when the amount is out of range, which in
the source language is an overflow fault (a debug-build panic). -/
def shl32_checked (a b : ℕ) : Option ℕ :=
  if b < 32 then some ((a <<< b) % 2 ^ 32) else none

/-- the immediate-mode operand-2 computation of
`process_data_instruction` (src lines 310-312) with the left shift
checked for shift-width overflow. -/
def operand_2_immediate_checked (instruction : ℕ) : Option (ℕ × Bool) :=
  let rotate := get_bits instruction 8 4 <<< 1
  let immediate := get_bits instruction 0 8
  (shl32_checked (get_bits immediate 0 rotate) (32 - rotate)).map fun t =>
    ((immediate >>> rotate) ||| t,
      if 0 < rotate then get_bit immediate (rotate - 1) else false)

/-- exact (unmasked) bit test, used by the claim-side shifter below. -/
def get_bit_exact (data n : ℕ) : Bool := (data >>> n) % 2 == 1

/-- Modelled from the spec's words for the refinement comparison of the
register-mode shifter (spec §4.3): the shift amount is either the
immediate 5-bit field or the LOW BYTE of the shift register, shifts and
carry-bit indices are exact (no 5-bit masking).  This follows the
claim's wording, not the source. -/
def shift_operation_claim (cpu : CPU) (instruction : ℕ) : Option (ℕ × Bool) :=
  let rm := get_bits instruction 0 4
  if rm = PC then none
  else
    let rm_value := cpu.get_register rm
    let shift_amount? : Option ℕ :=
      if get_bit instruction 4 = false then some (get_bits instruction 7 5)
      else if get_bit instruction 7 = false then
        some (cpu.get_register (get_bits instruction 8 4) % 2 ^ 8)
      else none
    match shift_amount? with
    | none => none
    | some shift_amount =>
      if shift_amount = 0 then some (rm_value, false)
      else
        match get_bit instruction 6, get_bit instruction 5 with
        | false, false =>
            some ((rm_value <<< shift_amount) % 2 ^ 32,
              get_bit_exact rm_value (32 - shift_amount))
        | false, true =>
            some (rm_value >>> shift_amount,
              get_bit_exact rm_value (shift_amount - 1))
        | true, false =>
            some (rm_value >>> shift_amount |||
                (if get_bit_exact rm_value 31 then
                  (2 ^ 32 - 1) - ((2 ^ 32 - 1) >>> shift_amount) else 0),
              get_bit_exact rm_value (shift_amount - 1))
        | true, true =>
            some (rm_value >>> shift_amount |||
                (rm_value % 2 ^ shift_amount) <<< (32 - shift_amount) % 2 ^ 32,
              get_bit_exact rm_value (shift_amount - 1))

/-- the all-zero machine: fresh `CPU::new()` state (src lines 72-83). -/
def cpu0 : CPU :=
  { registers := fun _ => 0
    cpsr := { n := false, z := false, c := false, v := false }
    memory := fun _ => 0 }

/-! ### Basic frame lemmas about the state operations -/

theorem set_register_cpsr (cpu : CPU) (r v : ℕ) :
    (cpu.set_register r v).cpsr = cpu.cpsr := rfl

theorem set_register_memory (cpu : CPU) (r v : ℕ) :
    (cpu.set_register r v).memory = cpu.memory := rfl

theorem set_mem_word_registers (cpu : CPU) (loc v : ℕ) :
    (cpu.set_mem_word loc v).registers = cpu.registers := rfl

theorem set_mem_word_cpsr (cpu : CPU) (loc v : ℕ) :
    (cpu.set_mem_word loc v).cpsr = cpu.cpsr := rfl

theorem set_register_get_same (cpu : CPU) (r v : ℕ) :
    (cpu.set_register r v).registers (regFin r) = v := by
  simp [CPU.set_register]

theorem set_register_get_ne (cpu : CPU) (r v : ℕ) (x : Fin 16) (hx : x ≠ regFin r) :
    (cpu.set_register r v).registers x = cpu.registers x := by
  simp [CPU.set_register, Function.update_noteq hx]

/-- every 4-bit field is a register number below 16. -/
theorem get_bits_four_lt (d s : ℕ) : get_bits d s 4 < 16 := by
  have h := Nat.mod_lt (d >>> (s % 32)) (show 0 < 2 ^ (4 % 32) by norm_num)
  simpa [get_bits, mask32] using h

theorem regFin_lt_eq {a : ℕ} (ha : a < 16) : regFin a = ⟨a, ha⟩ := by
  simp [regFin, Nat.mod_eq_of_lt ha]

theorem regFin_ne_of_ne {a b : ℕ} (ha : a < 16) (hb : b < 16) (h : a ≠ b) :
    regFin a ≠ regFin b := by
  rw [regFin_lt_eq ha, regFin_lt_eq hb]
  simp [Fin.ext_iff]
  omega

/-! ### Lemmas about the access stage of the single data transfer -/

theorem transfer_access_cpsr (cpu : CPU) (memloc rd_reg : ℕ) (l : Bool) :
    (transfer_access cpu memloc rd_reg l).1.cpsr = cpu.cpsr := by
  unfold transfer_access
  split_ifs <;> rfl

theorem transfer_access_registers_store (cpu : CPU) (memloc rd_reg : ℕ) :
    (transfer_access cpu memloc rd_reg false).1.registers = cpu.registers := by
  unfold transfer_access
  split_ifs <;> first | rfl | exact False.elim (by assumption)

theorem transfer_access_registers_ne (cpu : CPU) (memloc rd_reg : ℕ) (l : Bool)
    (x : Fin 16) (hx : x ≠ regFin rd_reg) :
    (transfer_access cpu memloc rd_reg l).1.registers x = cpu.registers x := by
  unfold transfer_access
  split_ifs <;>
    simp [CPU.set_register, CPU.set_mem_word, Function.update_noteq hx]

/-- the only branch that writes memory is the in-bounds generic access. -/
theorem transfer_access_memory_ge (cpu : CPU) (memloc rd_reg : ℕ) (l : Bool)
    (hbig : ¬ memloc < MEMSIZE - 4) :
    (transfer_access cpu memloc rd_reg l).1.memory = cpu.memory := by
  unfold transfer_access
  split_ifs <;> first | rfl | exact absurd (by assumption) hbig

theorem transfer_access_gpio (cpu : CPU) (memloc rd_reg : ℕ) (l : Bool)
    (h : memloc = 0x20200008 ∨ memloc = 0x20200004 ∨ memloc = 0x20200000) :
    transfer_access cpu memloc rd_reg l =
      (if l then cpu.set_register rd_reg memloc else cpu,
        [LogEvent.gpioAccess (((memloc &&& 0xF) >>> 2) * 10)
          (((memloc &&& 0xF) >>> 2) * 10 + 9)]) := by
  unfold transfer_access
  rw [if_pos h]

theorem transfer_access_pinOff (cpu : CPU) (rd_reg : ℕ) :
    transfer_access cpu 0x20200028 rd_reg false = (cpu, [LogEvent.pinOff]) := by
  unfold transfer_access
  rw [if_neg (by decide), if_pos (by decide)]

theorem transfer_access_pinOn (cpu : CPU) (rd_reg : ℕ) :
    transfer_access cpu 0x2020001C rd_reg false = (cpu, [LogEvent.pinOn]) := by
  unfold transfer_access
  rw [if_neg (by decide), if_neg (by decide), if_pos (by decide)]

theorem transfer_access_oob (cpu : CPU) (memloc rd_reg : ℕ) (l : Bool)
    (hbig : ¬ memloc < MEMSIZE - 4)
    (h0 : memloc ≠ 0x20200000) (h4 : memloc ≠ 0x20200004) (h8 : memloc ≠ 0x20200008)
    (h1C : memloc ≠ 0x2020001C) (h28 : memloc ≠ 0x20200028) :
    transfer_access cpu memloc rd_reg l = (cpu, [LogEvent.outOfBounds memloc]) := by
  unfold transfer_access
  rw [if_neg (by tauto), if_neg (by tauto), if_neg (by tauto), if_neg hbig]

/-! ## Claims -/

/-- Claim C1 (code bug): the claim states that the execute/skip decision
is a function of only the instruction's condition field, bits 28-31, with
AL (14) always executing.  The code instead matches the entire 32-bit
instruction word against the condition constants, so an ordinary
instruction such as `0xE3A00005` (MOV r0,#5, condition field AL = 14) is
skipped for every flag state. -/
theorem check_condition_ignores_condition_field (cpu : CPU) :
    get_bits 0xE3A00005 28 4 = 14 ∧ check_condition cpu 0xE3A00005 = false := by
  exact ⟨by decide, rfl⟩

/-- Claim C2 (code bug): the claim states that the branch target,
PC + sign-extended 24-bit offset × 4, is stored into PC (register 15).
The code instead stores `((bits 0-22 of the word) - bias) << 2` — a value
that does not depend on PC at all — into register 14, and leaves
register 15 unchanged: evaluated on the branch word `0xEA000002`
(offset field 2), register 14 receives 4 and PC keeps its old value. -/
theorem branch_writes_link_register_not_pc (cpu : CPU) :
    (branch_instruction cpu 0xEA000002).registers (regFin 15) =
      cpu.registers (regFin 15) ∧
    (branch_instruction cpu 0xEA000002).registers (regFin 14) = 4 := by
  unfold branch_instruction CPU.set_register
  constructor
  · show Function.update cpu.registers (regFin 14)
        (shl32 (wsub (get_bits 0xEA000002 0 23)
          (if get_bit 0xEA000002 23 = true then 0x800001 else 1)) 2) (regFin 15) =
      cpu.registers (regFin 15)
    exact Function.update_noteq (show regFin 15 ≠ regFin 14 by decide) _ _
  · show Function.update cpu.registers (regFin 14)
        (shl32 (wsub (get_bits 0xEA000002 0 23)
          (if get_bit 0xEA000002 23 = true then 0x800001 else 1)) 2) (regFin 14) = 4
    rw [Function.update_same]
    decide

/-- Claim C10 (confirmed): the immediate-mode operand-2 computation
evaluates `(immediate >> rotate) | (get_bits(immediate, 0, rotate) <<
(32 - rotate))`; the left shift has width `32 - rotate`, which is a
shift-width overflow of the source language exactly when the doubled
rotate amount is 0, so the computation is free of shift-overflow faults
iff `rotate ≥ 1`. -/
theorem operand_2_immediate_total_iff_rotate_pos (instruction : ℕ) :
    (operand_2_immediate_checked instruction).isSome = true ↔
      1 ≤ get_bits instruction 8 4 <<< 1 := by
  have h16 : get_bits instruction 8 4 < 16 := get_bits_four_lt instruction 8
  have h2 : get_bits instruction 8 4 <<< 1 = 2 * get_bits instruction 8 4 := by
    rw [Nat.shiftLeft_eq]
    ring
  unfold operand_2_immediate_checked shl32_checked
  show ((if 32 - get_bits instruction 8 4 <<< 1 < 32 then
      some ((get_bits (get_bits instruction 0 8) 0 (get_bits instruction 8 4 <<< 1) <<<
        (32 - get_bits instruction 8 4 <<< 1)) % 2 ^ 32) else none).map
    (fun t => ((get_bits instruction 0 8 >>> (get_bits instruction 8 4 <<< 1)) ||| t,
      if 0 < get_bits instruction 8 4 <<< 1 then
        get_bit (get_bits instruction 0 8) (get_bits instruction 8 4 <<< 1 - 1)
      else false))).isSome = true ↔ 1 ≤ get_bits instruction 8 4 <<< 1
  rcases Nat.eq_zero_or_pos (get_bits instruction 8 4) with h0 | h0
  · rw [h0, if_neg (by decide)]
    constructor
    · intro hfalse
      exact absurd hfalse (by simp)
    · intro hfalse
      exact absurd hfalse (by decide)
  · rw [if_pos (show 32 - get_bits instruction 8 4 <<< 1 < 32 by rw [h2]; omega)]
    simp only [Option.map_some', Option.isSome_some, true_iff]
    rw [h2]
    omega

/-- a 32-bit wrapping `32 - amount`, masked as a shift amount, is
`(32 - amount % 32) % 32`. -/
theorem mask32_wsub_32 (amount : ℕ) :
    mask32 (wsub 32 amount) = (32 - amount % 32) % 32 := by
  unfold mask32 wsub
  omega

theorem get_bit_wsub_32 (v amount : ℕ) :
    get_bit v (wsub 32 amount) = ((v >>> ((32 - amount % 32) % 32)) % 2 == 1) := by
  unfold get_bit
  rw [mask32_wsub_32]

theorem shl32_wsub_32 (a amount : ℕ) :
    shl32 a (wsub 32 amount) = (a <<< ((32 - amount % 32) % 32)) % 2 ^ 32 := by
  unfold shl32
  rw [mask32_wsub_32]

/-- concrete machine for claim C3: carry pre-seeded true, register 1
holding 5. -/
def carryCPU : CPU :=
  { cpu0 with
    cpsr := { n := false, z := false, c := true, v := false }
    registers := Function.update cpu0.registers (regFin 1) 5 }

/-- Claim C3 counterexample: `0x01B00001` is `MOVS r0, r1` with a
register operand whose final shift amount is 0 (bit 4 clear, bits 7-11
zero); the claim says executing it must preserve a pre-seeded carry,
but with carry pre-seeded true the machine ends with carry false. -/
theorem shift_amount_zero_clears_carry_counterexample :
    carryCPU.cpsr.c = true ∧
    get_bit 0x01B00001 4 = false ∧ get_bits 0x01B00001 7 5 = 0 ∧
    get_bit 0x01B00001 20 = true ∧
    (process_data_instruction carryCPU 0x01B00001).map (fun c => c.cpsr.c) =
      some false := by decide

/-- Claim C3 (amended): whenever the final shift/rotate amount is 0 —
register mode with an immediate amount field of 0, register mode with a
shift register holding 0, or immediate mode with rotate field 0 — the
operand-2 value passes through unchanged, but the resolver reports a
carry-out of `false` rather than a no-update sentinel; with the
set-flags bit on, any logical-class instruction (AND/EOR/ORR/TEQ/TST/
MOV) then overwrites the carry flag with that `false`, whatever its
prior value, and with the set-flags bit off no flag changes. -/
theorem shift_amount_zero_value_unchanged_carry_false (cpu : CPU) (instruction : ℕ) :
    (get_bit instruction 4 = false → get_bits instruction 7 5 = 0 →
      get_bits instruction 0 4 ≠ 15 →
      shift_operation cpu instruction =
        some (cpu.get_register (get_bits instruction 0 4), false)) ∧
    (get_bit instruction 4 = true → get_bit instruction 7 = false →
      cpu.get_register (get_bits instruction 8 4) = 0 →
      get_bits instruction 0 4 ≠ 15 →
      shift_operation cpu instruction =
        some (cpu.get_register (get_bits instruction 0 4), false)) ∧
    (get_bit instruction 25 = true → get_bits instruction 8 4 = 0 →
      operand_2 cpu instruction = some (get_bits instruction 0 8, false)) ∧
    (∀ o2v : ℕ, operand_2 cpu instruction = some (o2v, false) →
      get_bit instruction 20 = true →
      (get_bits instruction 21 4 = 0 ∨ get_bits instruction 21 4 = 1 ∨
        get_bits instruction 21 4 = 12 ∨ get_bits instruction 21 4 = 9 ∨
        get_bits instruction 21 4 = 8 ∨ get_bits instruction 21 4 = 13) →
      ∀ cpu', process_data_instruction cpu instruction = some cpu' →
        cpu'.cpsr.c = false) ∧
    (get_bit instruction 20 = false →
      ∀ cpu', process_data_instruction cpu instruction = some cpu' →
        cpu'.cpsr = cpu.cpsr) := by
  refine ⟨?_, ?_, ?_, ?_, ?_⟩
  · intro h4 hamt hrm
    unfold shift_operation
    rw [if_neg (show ¬ get_bits instruction 0 4 = PC from hrm), if_pos h4, hamt]
    rfl
  · intro h4 h7 hz hrm
    unfold shift_operation
    rw [if_neg (show ¬ get_bits instruction 0 4 = PC from hrm),
      if_neg (show ¬ get_bit instruction 4 = false by simp [h4]), if_pos h7, hz]
    rfl
  · intro h25 hrot
    unfold operand_2
    rw [if_pos h25]
    dsimp only
    rw [hrot]
    simp [shl32, mask32, wsub, get_bits, Nat.mod_one]
  · intro o2v ho hs hop cpu' h
    unfold process_data_instruction at h
    rw [ho] at h
    dsimp only at h
    cases halu : alu_result (cpu.get_register (get_bits instruction 16 4)) o2v
        (get_bits instruction 21 4) with
    | none =>
      rw [halu] at h
      exact absurd h (by simp)
    | some result =>
      rw [halu] at h
      dsimp only at h
      rw [if_pos hs, Option.some.injEq] at h
      rw [← h]
      rcases hop with h' | h' | h' | h' | h' | h' <;> rw [h'] <;> rfl
  · intro hs cpu' h
    unfold process_data_instruction at h
    cases ho : operand_2 cpu instruction with
    | none =>
      rw [ho] at h
      exact absurd h (by simp)
    | some pr =>
      obtain ⟨o2v, o2c⟩ := pr
      rw [ho] at h
      dsimp only at h
      cases halu : alu_result (cpu.get_register (get_bits instruction 16 4)) o2v
          (get_bits instruction 21 4) with
      | none =>
        rw [halu] at h
        exact absurd h (by simp)
      | some result =>
        rw [halu] at h
        dsimp only at h
        rw [if_neg (by rw [hs]; exact Bool.false_ne_true), Option.some.injEq] at h
        rw [← h]
        show (if _ then cpu.set_register _ result else cpu).cpsr = cpu.cpsr
        split <;> rfl

/-- Claim C3 witness: the amended statement exercised on the pre-seeded
machine: `MOVS r0, r1` with immediate amount 0 (`0x01B00001`), an
`r1 LSL r2` operand with r2 holding 0 (`0x211`), `MOVS r0, #5` with
rotate field 0 (`0x03B00005`); with carry pre-seeded true the MOVS ends
with carry false, and without the S bit (`0x01A00001`) the flags are
unchanged. -/
theorem shift_amount_zero_value_unchanged_carry_false_witness :
    shift_operation carryCPU 0x01B00001 = some (5, false) ∧
    shift_operation carryCPU 0x211 = some (5, false) ∧
    operand_2 carryCPU 0x03B00005 = some (5, false) ∧
    carryCPU.cpsr.c = true ∧
    (process_data_instruction carryCPU 0x01B00001).map (fun c => c.cpsr.c) =
      some false ∧
    (process_data_instruction carryCPU 0x01A00001).map (fun c => c.cpsr) =
      some carryCPU.cpsr := by
  refine ⟨?_, ?_, ?_, rfl, ?_, ?_⟩
  · exact (shift_amount_zero_value_unchanged_carry_false carryCPU 0x01B00001).1
      (by decide) (by decide) (by decide)
  · exact (shift_amount_zero_value_unchanged_carry_false carryCPU 0x211).2.1
      (by decide) (by decide) rfl (by decide)
  · exact (shift_amount_zero_value_unchanged_carry_false carryCPU 0x03B00005).2.2.1
      (by decide) (by decide)
  · have hd := (shift_amount_zero_value_unchanged_carry_false carryCPU 0x01B00001).2.2.2.1
      5 rfl (by decide) (by decide)
    have hp : process_data_instruction carryCPU 0x01B00001 =
        some { carryCPU.set_register 0 5 with
          cpsr := { n := false, z := false, c := false, v := false } } := by rfl
    exact congrArg some (hd _ hp)
  · have he := (shift_amount_zero_value_unchanged_carry_false carryCPU 0x01A00001).2.2.2.2
      (by decide)
    have hp : process_data_instruction carryCPU 0x01A00001 =
        some (carryCPU.set_register 0 5) := by rfl
    exact congrArg some (he _ hp)

/-- Claim C4 (confirmed): with the set-flags bit on, a data-processing
instruction sets Z to (result = 0), N to bit 31 of the result, C to the
shifter carry-out for AND/EOR/ORR/TEQ/TST/MOV, to the sign-bit
unsigned-overflow detection for ADD/RSB, and to (operand2 ≤ Rn) for
SUB/CMP, while V is never updated; with the set-flags bit off no flag
changes. -/
theorem process_data_flag_semantics (cpu cpu' : CPU) (instruction o2v result : ℕ)
    (o2c : Bool)
    (ho : operand_2 cpu instruction = some (o2v, o2c))
    (hr : alu_result (cpu.get_register (get_bits instruction 16 4)) o2v
      (get_bits instruction 21 4) = some result)
    (h : process_data_instruction cpu instruction = some cpu') :
    (get_bit instruction 20 = false → cpu'.cpsr = cpu.cpsr) ∧
    (get_bit instruction 20 = true →
      cpu'.cpsr.v = cpu.cpsr.v ∧
      cpu'.cpsr.z = (result == 0) ∧
      cpu'.cpsr.n = get_bit result 31 ∧
      ((get_bits instruction 21 4 = 0 ∨ get_bits instruction 21 4 = 1 ∨
        get_bits instruction 21 4 = 12 ∨ get_bits instruction 21 4 = 9 ∨
        get_bits instruction 21 4 = 8 ∨ get_bits instruction 21 4 = 13) →
        cpu'.cpsr.c = o2c) ∧
      ((get_bits instruction 21 4 = 4 ∨ get_bits instruction 21 4 = 3) →
        cpu'.cpsr.c = ((get_bit (cpu.get_register (get_bits instruction 16 4)) 31 ||
          get_bit o2v 31) && !get_bit result 31)) ∧
      ((get_bits instruction 21 4 = 2 ∨ get_bits instruction 21 4 = 10) →
        cpu'.cpsr.c = decide (o2v ≤ cpu.get_register (get_bits instruction 16 4)))) := by
  unfold process_data_instruction at h
  rw [ho] at h
  dsimp only at h
  rw [hr] at h
  dsimp only at h
  by_cases hs : get_bit instruction 20 = true
  · rw [if_pos hs] at h
    rw [Option.some.injEq] at h
    constructor
    · intro hs'
      rw [hs'] at hs
      exact absurd hs (by decide)
    · intro _
      refine ⟨?_, ?_, ?_, ?_, ?_, ?_⟩
      · rw [← h]
        show (if _ then cpu.set_register _ result else cpu).cpsr.v = cpu.cpsr.v
        split <;> rfl
      · rw [← h]
      · rw [← h]
      · intro hd
        rcases hd with h' | h' | h' | h' | h' | h' <;> rw [← h, h'] <;> rfl
      · intro hd
        rcases hd with h' | h' <;> rw [← h, h'] <;> rfl
      · intro hd
        rcases hd with h' | h' <;> rw [← h, h'] <;> rfl
  · rw [if_neg hs] at h
    rw [Option.some.injEq] at h
    constructor
    · intro _
      rw [← h]
      show (if _ then cpu.set_register _ result else cpu).cpsr = cpu.cpsr
      split <;> rfl
    · intro hs'
      exact absurd hs' hs

/-- concrete machine for the claim C4 witness: register 1 holds
`0xFFFFFFFF`, V pre-seeded true. -/
def addCPU : CPU :=
  { cpu0 with
    cpsr := { n := false, z := false, c := false, v := true }
    registers := Function.update cpu0.registers (regFin 1) 0xFFFFFFFF }

/-- the machine after `ADDS r0, r1, #1` on `addCPU`. -/
def addCPUafter : CPU :=
  { addCPU.set_register 0 0 with
    cpsr := { n := false, z := true, c := true, v := true } }

/-- Claim C4 witness: the flag semantics applied to `ADDS r0, r1, #1`
(`0x02910001`) with r1 = `0xFFFFFFFF`: the sum wraps to 0, setting Z and
C while V keeps its pre-seeded value. -/
theorem process_data_flag_semantics_witness :
    operand_2 addCPU 0x02910001 = some (1, false) ∧
    alu_result (addCPU.get_register (get_bits 0x02910001 16 4)) 1
      (get_bits 0x02910001 21 4) = some 0 ∧
    process_data_instruction addCPU 0x02910001 = some addCPUafter ∧
    ((get_bit 0x02910001 20 = false → addCPUafter.cpsr = addCPU.cpsr) ∧
     (get_bit 0x02910001 20 = true →
      addCPUafter.cpsr.v = addCPU.cpsr.v ∧
      addCPUafter.cpsr.z = ((0 : ℕ) == 0) ∧
      addCPUafter.cpsr.n = get_bit 0 31 ∧
      ((get_bits 0x02910001 21 4 = 0 ∨ get_bits 0x02910001 21 4 = 1 ∨
        get_bits 0x02910001 21 4 = 12 ∨ get_bits 0x02910001 21 4 = 9 ∨
        get_bits 0x02910001 21 4 = 8 ∨ get_bits 0x02910001 21 4 = 13) →
        addCPUafter.cpsr.c = false) ∧
      ((get_bits 0x02910001 21 4 = 4 ∨ get_bits 0x02910001 21 4 = 3) →
        addCPUafter.cpsr.c =
          ((get_bit (addCPU.get_register (get_bits 0x02910001 16 4)) 31 ||
            get_bit 1 31) && !get_bit 0 31)) ∧
      ((get_bits 0x02910001 21 4 = 2 ∨ get_bits 0x02910001 21 4 = 10) →
        addCPUafter.cpsr.c = decide (1 ≤ addCPU.get_register (get_bits 0x02910001 16 4))))) :=
  ⟨rfl, rfl, rfl,
    process_data_flag_semantics addCPU addCPUafter 0x02910001 1 0 false rfl rfl rfl⟩

/-- concrete machine for claim C5: register 1 holds 5, register 2 holds
`0x121` (low byte `0x21` = 33, full value 289). -/
def shiftRegCPU : CPU :=
  { cpu0 with registers :=
      Function.update (Function.update cpu0.registers (regFin 1) 5) (regFin 2) 0x121 }

/-- Claim C5 counterexample: `0x231` encodes `r1 LSR r2`.  With r2 =
`0x121` the claim prescribes shifting by the low byte 33 (value 0,
carry-out bit 32 = false), but the code shifts by the full register
value 289, which the 32-bit shift masks to 1: value 2, carry-out
bit 0 = true. -/
theorem shift_register_low_byte_counterexample :
    shift_operation shiftRegCPU 0x231 = some (2, true) ∧
    shift_operation_claim shiftRegCPU 0x231 = some (0, false) ∧
    shift_operation shiftRegCPU 0x231 ≠ shift_operation_claim shiftRegCPU 0x231 := by
  decide

/-- Claim C5 (amended): in register mode, Rm is shifted by either the
immediate 5-bit amount in bits 7-11 or by the FULL 32-bit value of the
register named in bits 8-11 (not just its low byte); for a nonzero
amount the shifted value and the carry-out are computed with the amount
and the carry bit index reduced modulo 32 (the source language's
release-mode shift masking): the value uses `amount mod 32`, the carry
is bit `(32 - amount mod 32) mod 32` for LSL and bit
`(amount - 1) mod 32` for LSR/ASR/ROR. -/
theorem shift_register_amount_full_value (cpu : CPU) (instruction : ℕ) (amount : ℕ)
    (hrm : get_bits instruction 0 4 ≠ 15)
    (hmode : (get_bit instruction 4 = false ∧ amount = get_bits instruction 7 5) ∨
      (get_bit instruction 4 = true ∧ get_bit instruction 7 = false ∧
        amount = cpu.get_register (get_bits instruction 8 4)))
    (hnz : amount ≠ 0) :
    (get_bit instruction 6 = false → get_bit instruction 5 = false →
      shift_operation cpu instruction = some
        ((cpu.get_register (get_bits instruction 0 4) <<< (amount % 32)) % 2 ^ 32,
          (cpu.get_register (get_bits instruction 0 4) >>>
            ((32 - amount % 32) % 32)) % 2 == 1)) ∧
    (get_bit instruction 6 = false → get_bit instruction 5 = true →
      shift_operation cpu instruction = some
        (cpu.get_register (get_bits instruction 0 4) >>> (amount % 32),
          (cpu.get_register (get_bits instruction 0 4) >>>
            ((amount - 1) % 32)) % 2 == 1)) ∧
    (get_bit instruction 6 = true → get_bit instruction 5 = false →
      shift_operation cpu instruction = some
        (cpu.get_register (get_bits instruction 0 4) >>> (amount % 32) |||
          (if (cpu.get_register (get_bits instruction 0 4) >>> 31) % 2 == 1 then
            (0xFFFFFFFF <<< ((32 - amount % 32) % 32)) % 2 ^ 32
          else 0),
          (cpu.get_register (get_bits instruction 0 4) >>>
            ((amount - 1) % 32)) % 2 == 1)) ∧
    (get_bit instruction 6 = true → get_bit instruction 5 = true →
      shift_operation cpu instruction = some
        (cpu.get_register (get_bits instruction 0 4) >>> (amount % 32) |||
          ((cpu.get_register (get_bits instruction 0 4) % 2 ^ (amount % 32)) <<<
            ((32 - amount % 32) % 32)) % 2 ^ 32,
          (cpu.get_register (get_bits instruction 0 4) >>>
            ((amount - 1) % 32)) % 2 == 1)) := by
  refine ⟨?_, ?_, ?_, ?_⟩ <;> intro h6 h5 <;>
    rcases hmode with ⟨h4, ha⟩ | ⟨h4, h7, ha⟩ <;> subst ha <;>
    · first
      | (unfold shift_operation
         rw [if_neg (show ¬ get_bits instruction 0 4 = PC from hrm), if_pos h4]
         dsimp only
         rw [if_neg hnz, h6, h5]
         dsimp only
         try simp only [shl32_wsub_32, get_bit_wsub_32]
         rfl)
      | (unfold shift_operation
         rw [if_neg (show ¬ get_bits instruction 0 4 = PC from hrm),
           if_neg (show ¬ get_bit instruction 4 = false by simp [h4]), if_pos h7]
         dsimp only
         rw [if_neg hnz, h6, h5]
         dsimp only
         try simp only [shl32_wsub_32, get_bit_wsub_32]
         rfl)

/-- Claim C5 witness: the amended statement exercised in both sub-modes
on the machine with r1 = 5 and r2 = 289: `r1 LSR r2` (`0x231`) shifts by
289 mod 32 = 1 with carry bit (289 - 1) mod 32 = 0, and `r1 LSL #1`
(`0x081`) shifts by the immediate 5-bit amount 1. -/
theorem shift_register_amount_full_value_witness :
    get_bit 0x231 4 = true ∧ shiftRegCPU.get_register (get_bits 0x231 8 4) = 289 ∧
    shift_operation shiftRegCPU 0x231 = some (2, true) ∧
    get_bit 0x081 4 = false ∧ get_bits 0x081 7 5 = 1 ∧
    shift_operation shiftRegCPU 0x081 = some (10, false) := by
  refine ⟨by decide, rfl, ?_, by decide, by decide, ?_⟩
  · have h := ((shift_register_amount_full_value shiftRegCPU 0x231 289 (by decide)
      (Or.inr ⟨by decide, by decide, rfl⟩) (by decide)).2.1) (by decide) (by decide)
    rw [h]
    decide
  · have h := ((shift_register_amount_full_value shiftRegCPU 0x081 1 (by decide)
      (Or.inl ⟨by decide, by decide⟩) (by decide)).1) (by decide) (by decide)
    rw [h]
    decide

/-- the register slot of `rn_reg` is untouched by the access stage when
the transfer is a store or the transfer register differs from it. -/
theorem transfer_access_registers_rn (cpu : CPU) (memloc rd_reg rn_reg : ℕ) (l : Bool)
    (hrd : rd_reg < 16) (hrn : rn_reg < 16)
    (hno : ¬(l = true ∧ rd_reg = rn_reg)) :
    (transfer_access cpu memloc rd_reg l).1.registers (regFin rn_reg) =
      cpu.registers (regFin rn_reg) := by
  cases l
  · rw [transfer_access_registers_store]
  · have hne : rd_reg ≠ rn_reg := fun e => hno ⟨rfl, e⟩
    exact transfer_access_registers_ne _ _ _ _ _
      (regFin_ne_of_ne hrn hrd (fun e => hne e.symm))

/-- concrete machine for the claim C6 counterexample: the word at
address 0 is 77. -/
def aliasCPU : CPU := { cpu0 with memory := fun a => if a = 0 then 77 else 0 }

/-- Claim C6 counterexample: `0x04911008` is a post-indexed load with
Rd = Rn = r1 and immediate offset 8.  The claim says the base register
ends up holding base + signed_offset = 8, but the write-back happens
before the load, so r1 ends up holding the loaded word 77. -/
theorem post_index_write_back_overwritten_counterexample :
    get_bit 0x04911008 24 = false ∧ get_bit 0x04911008 20 = true ∧
    aliasCPU.get_register (get_bits 0x04911008 16 4) = 0 ∧
    transfer_offset aliasCPU 0x04911008 = some 8 ∧
    (single_data_transfer_instruction aliasCPU 0x04911008).map
      (fun x => x.1.registers (regFin (get_bits 0x04911008 16 4))) = some 77 ∧
    (77 : ℕ) ≠ addU32 0 8 := by
  refine ⟨by decide, by decide, rfl, by decide, rfl, by decide⟩

/-- Claim C6 (amended): pre-indexed transfers access `base + offset` and
never write `base + offset` back (the base register is unchanged unless
it is the destination of a load); post-indexed transfers access the
unmodified base and write `base + offset` into the base register, but
this write-back happens before the transfer, so a load whose destination
equals the base register overwrites it. -/
theorem transfer_indexing_semantics (cpu cpu' : CPU) (instruction : ℕ) (offset : ℤ)
    (log : List LogEvent)
    (hoff : transfer_offset cpu instruction = some offset)
    (h : single_data_transfer_instruction cpu instruction = some (cpu', log)) :
    (get_bit instruction 24 = true →
      transfer_memloc cpu instruction =
        some (addU32 (cpu.get_register (get_bits instruction 16 4)) offset) ∧
      (¬(get_bit instruction 20 = true ∧
          get_bits instruction 12 4 = get_bits instruction 16 4) →
        cpu'.registers (regFin (get_bits instruction 16 4)) =
          cpu.registers (regFin (get_bits instruction 16 4)))) ∧
    (get_bit instruction 24 = false →
      transfer_memloc cpu instruction =
        some (cpu.get_register (get_bits instruction 16 4)) ∧
      (¬(get_bit instruction 20 = true ∧
          get_bits instruction 12 4 = get_bits instruction 16 4) →
        cpu'.registers (regFin (get_bits instruction 16 4)) =
          addU32 (cpu.get_register (get_bits instruction 16 4)) offset)) := by
  unfold single_data_transfer_instruction at h
  by_cases hpc : PC = get_bits instruction 12 4
  · rw [if_pos hpc] at h
    exact absurd h (by simp)
  · rw [if_neg hpc] at h
    rw [hoff, Option.map_some'] at h
    rw [Option.some.injEq] at h
    dsimp only at h
    constructor
    · intro hp
      rw [if_pos hp] at h
      refine ⟨?_, ?_⟩
      · unfold transfer_memloc
        rw [hoff, Option.map_some']
        rw [if_pos hp]
      · intro hno
        have h1 := congrArg Prod.fst h
        dsimp only at h1
        rw [← h1]
        exact transfer_access_registers_rn _ _ _ _ _
          (get_bits_four_lt _ _) (get_bits_four_lt _ _) hno
    · intro hp
      rw [if_neg (by rw [hp]; exact Bool.false_ne_true)] at h
      refine ⟨?_, ?_⟩
      · unfold transfer_memloc
        rw [hoff, Option.map_some']
        rw [if_neg (by rw [hp]; exact Bool.false_ne_true)]
      · intro hno
        have h1 := congrArg Prod.fst h
        dsimp only at h1
        rw [← h1]
        rw [transfer_access_registers_rn _ _ _ _ _
          (get_bits_four_lt _ _) (get_bits_four_lt _ _) hno]
        exact set_register_get_same _ _ _

/-- concrete machine for the claim C6 witness: r1 holds 100. -/
def preCPU : CPU :=
  { cpu0 with registers := Function.update cpu0.registers (regFin 1) 100 }

/-- Claim C6 witness: the indexing semantics applied to the pre-indexed
store `0x05812004` (str r2, [r1, #4]) with r1 = 100: the access address
is 104 and r1 is unchanged. -/
theorem transfer_indexing_semantics_witness :
    transfer_offset preCPU 0x05812004 = some 4 ∧
    single_data_transfer_instruction preCPU 0x05812004 =
      some (preCPU.set_mem_word 104 0, []) ∧
    ((get_bit 0x05812004 24 = true →
      transfer_memloc preCPU 0x05812004 =
        some (addU32 (preCPU.get_register (get_bits 0x05812004 16 4)) 4) ∧
      (¬(get_bit 0x05812004 20 = true ∧
          get_bits 0x05812004 12 4 = get_bits 0x05812004 16 4) →
        (preCPU.set_mem_word 104 0).registers (regFin (get_bits 0x05812004 16 4)) =
          preCPU.registers (regFin (get_bits 0x05812004 16 4)))) ∧
    (get_bit 0x05812004 24 = false →
      transfer_memloc preCPU 0x05812004 =
        some (preCPU.get_register (get_bits 0x05812004 16 4)) ∧
      (¬(get_bit 0x05812004 20 = true ∧
          get_bits 0x05812004 12 4 = get_bits 0x05812004 16 4) →
        (preCPU.set_mem_word 104 0).registers (regFin (get_bits 0x05812004 16 4)) =
          addU32 (preCPU.get_register (get_bits 0x05812004 16 4)) 4))) :=
  ⟨rfl, rfl,
    transfer_indexing_semantics preCPU (preCPU.set_mem_word 104 0) 0x05812004 4 []
      rfl rfl⟩

/-- concrete machine for the claim C7 counterexample: r1 holds 32764,
the lowest out-of-bounds address. -/
def oobPostCPU : CPU :=
  { cpu0 with registers := Function.update cpu0.registers (regFin 1) 32764 }

/-- Claim C7 counterexample: `0x04812004` is a post-indexed store with
base r1 = 32764 (out of bounds) and offset 4.  The claim says an
out-of-bounds transfer leaves every register unchanged, but the
post-index write-back still happens: r1 ends up holding 32768. -/
theorem out_of_bounds_post_index_counterexample :
    oobPostCPU.registers (regFin 1) = 32764 ∧
    (single_data_transfer_instruction oobPostCPU 0x04812004).map
      (fun x => (x.1.registers (regFin 1), x.2)) =
      some (32768, [LogEvent.outOfBounds 32764]) ∧
    (32768 : ℕ) ≠ 32764 := by
  refine ⟨rfl, rfl, by decide⟩

/-- Claim C7 (amended): an out-of-bounds non-special access logs a
warning and performs no memory access and no transfer: memory and flags
are unchanged, and a pre-indexed instruction leaves every register
unchanged; a post-indexed instruction still performs its base-register
write-back, leaving every other register unchanged. -/
theorem out_of_bounds_transfer_no_access (cpu cpu' : CPU) (instruction : ℕ)
    (offset : ℤ) (memloc : ℕ) (log : List LogEvent)
    (hoff : transfer_offset cpu instruction = some offset)
    (hm : transfer_memloc cpu instruction = some memloc)
    (h : single_data_transfer_instruction cpu instruction = some (cpu', log))
    (hbig : ¬ memloc < MEMSIZE - 4)
    (h0 : memloc ≠ 0x20200000) (ha4 : memloc ≠ 0x20200004) (h8 : memloc ≠ 0x20200008)
    (h1C : memloc ≠ 0x2020001C) (h28 : memloc ≠ 0x20200028) :
    log = [LogEvent.outOfBounds memloc] ∧
    cpu'.memory = cpu.memory ∧
    cpu'.cpsr = cpu.cpsr ∧
    (get_bit instruction 24 = true → cpu'.registers = cpu.registers) ∧
    (get_bit instruction 24 = false →
      cpu'.registers (regFin (get_bits instruction 16 4)) =
        addU32 (cpu.get_register (get_bits instruction 16 4)) offset ∧
      ∀ x : Fin 16, x ≠ regFin (get_bits instruction 16 4) →
        cpu'.registers x = cpu.registers x) := by
  unfold single_data_transfer_instruction at h
  by_cases hpc : PC = get_bits instruction 12 4
  · rw [if_pos hpc] at h
    exact absurd h (by simp)
  · rw [if_neg hpc] at h
    rw [hoff, Option.map_some'] at h
    rw [Option.some.injEq] at h
    dsimp only at h
    unfold transfer_memloc at hm
    rw [hoff, Option.map_some', Option.some.injEq] at hm
    by_cases hp : get_bit instruction 24 = true
    · rw [if_pos hp] at h hm
      rw [hm] at h
      rw [transfer_access_oob _ _ _ _ hbig h0 ha4 h8 h1C h28] at h
      rw [Prod.mk.injEq] at h
      refine ⟨h.2.symm, by rw [← h.1], by rw [← h.1], fun _ => by rw [← h.1], ?_⟩
      intro hp'
      rw [hp'] at hp
      exact absurd hp Bool.false_ne_true
    · rw [if_neg hp] at h hm
      rw [hm] at h
      rw [transfer_access_oob _ _ _ _ hbig h0 ha4 h8 h1C h28] at h
      rw [Prod.mk.injEq] at h
      refine ⟨h.2.symm, by rw [← h.1]; rfl, by rw [← h.1]; rfl,
        fun hp' => absurd hp' hp, ?_⟩
      intro _
      constructor
      · rw [← h.1, hm]
        exact set_register_get_same _ _ _
      · intro x hx
        rw [← h.1]
        exact set_register_get_ne _ _ _ _ hx

/-- concrete machine for the claim C7 witness: r1 holds 40000. -/
def oobPreCPU : CPU :=
  { cpu0 with registers := Function.update cpu0.registers (regFin 1) 40000 }

/-- Claim C7 witness: the out-of-bounds semantics applied to the
pre-indexed load `0x05912004` (ldr r2, [r1, #4]) with r1 = 40000: the
machine is unchanged and the warning for address 40004 is logged. -/
theorem out_of_bounds_transfer_no_access_witness :
    transfer_offset oobPreCPU 0x05912004 = some 4 ∧
    transfer_memloc oobPreCPU 0x05912004 = some 40004 ∧
    single_data_transfer_instruction oobPreCPU 0x05912004 =
      some (oobPreCPU, [LogEvent.outOfBounds 40004]) ∧
    ¬ (40004 : ℕ) < MEMSIZE - 4 ∧
    ([LogEvent.outOfBounds 40004] = [LogEvent.outOfBounds 40004] ∧
      oobPreCPU.memory = oobPreCPU.memory ∧
      oobPreCPU.cpsr = oobPreCPU.cpsr ∧
      (get_bit 0x05912004 24 = true → oobPreCPU.registers = oobPreCPU.registers) ∧
      (get_bit 0x05912004 24 = false →
        oobPreCPU.registers (regFin (get_bits 0x05912004 16 4)) =
          addU32 (oobPreCPU.get_register (get_bits 0x05912004 16 4)) 4 ∧
        ∀ x : Fin 16, x ≠ regFin (get_bits 0x05912004 16 4) →
          oobPreCPU.registers x = oobPreCPU.registers x)) :=
  ⟨rfl, rfl, rfl, by decide,
    out_of_bounds_transfer_no_access oobPreCPU oobPreCPU 0x05912004 4 40004
      [LogEvent.outOfBounds 40004] rfl rfl rfl (by decide) (by decide) (by decide)
      (by decide) (by decide) (by decide)⟩

/-- Claim C8 counterexample: `0x07901001` is a pre-indexed transfer with
a register-specified offset whose offset register number equals Rd
(both are r1); the claim says this must be a fatal error, but the code
executes it normally (the aliasing check only fires on post-indexed
transfers, and compares the offset register's value with Rd's number). -/
theorem pre_index_alias_not_fatal_counterexample :
    get_bit 0x07901001 25 = true ∧ get_bit 0x07901001 24 = true ∧
    get_bits 0x07901001 0 4 = get_bits 0x07901001 12 4 ∧
    (single_data_transfer_instruction cpu0 0x07901001).isSome = true := by
  decide

/-- Claim C8 (amended): a single data transfer whose Rd is PC is fatal;
and a transfer with a register-specified offset that is post-indexed and
whose offset register holds a value equal to Rd's register number is
fatal.  Pre-indexed aliasing is not checked. -/
theorem transfer_fatal_conditions (cpu : CPU) (instruction : ℕ) :
    (get_bits instruction 12 4 = 15 →
      single_data_transfer_instruction cpu instruction = none) ∧
    (get_bit instruction 25 = true → get_bit instruction 24 = false →
      cpu.get_register (get_bits instruction 0 4) = get_bits instruction 12 4 →
      single_data_transfer_instruction cpu instruction = none) := by
  constructor
  · intro hrd
    unfold single_data_transfer_instruction
    rw [if_pos (show PC = get_bits instruction 12 4 by rw [hrd]; rfl)]
  · intro hi hp halias
    unfold single_data_transfer_instruction
    by_cases hpc : PC = get_bits instruction 12 4
    · rw [if_pos hpc]
    · rw [if_neg hpc]
      have hnone : transfer_offset cpu instruction = none := by
        unfold transfer_offset
        dsimp only
        rw [if_pos hi, if_pos (show cpu.get_register (get_bits instruction 0 4) =
          get_bits instruction 12 4 ∧ get_bit instruction 24 = false from ⟨halias, hp⟩)]
        rfl
      rw [hnone]
      rfl

/-- Claim C8 witness: `0x0400F000` uses PC as Rd and is fatal;
`0x06000000` is post-indexed with register offset r0 whose value 0
equals Rd's number 0, and is fatal. -/
theorem transfer_fatal_conditions_witness :
    single_data_transfer_instruction cpu0 0x0400F000 = none ∧
    single_data_transfer_instruction cpu0 0x06000000 = none :=
  ⟨(transfer_fatal_conditions cpu0 0x0400F000).1 (by decide),
    (transfer_fatal_conditions cpu0 0x06000000).2 (by decide) (by decide) rfl⟩

/-- Claim C9 (confirmed): a transfer whose effective address is one of
the three GPIO pin-function-select addresses logs the pin-access message
for region ((address &&& 0xF) >>> 2) * 10 and, on a load, stores the raw
address into the destination register; a store to `0x2020001C` logs
PIN ON, a store to `0x20200028` logs PIN OFF; none of these special
cases writes any memory. -/
theorem gpio_transfer_semantics (cpu cpu' : CPU) (instruction : ℕ) (offset : ℤ)
    (memloc : ℕ) (log : List LogEvent)
    (hoff : transfer_offset cpu instruction = some offset)
    (hm : transfer_memloc cpu instruction = some memloc)
    (h : single_data_transfer_instruction cpu instruction = some (cpu', log)) :
    (memloc = 0x20200000 ∨ memloc = 0x20200004 ∨ memloc = 0x20200008 →
      log = [LogEvent.gpioAccess (((memloc &&& 0xF) >>> 2) * 10)
        (((memloc &&& 0xF) >>> 2) * 10 + 9)] ∧
      cpu'.memory = cpu.memory ∧
      (get_bit instruction 20 = true →
        cpu'.registers (regFin (get_bits instruction 12 4)) = memloc)) ∧
    (memloc = 0x2020001C → get_bit instruction 20 = false →
      log = [LogEvent.pinOn] ∧ cpu'.memory = cpu.memory) ∧
    (memloc = 0x20200028 → get_bit instruction 20 = false →
      log = [LogEvent.pinOff] ∧ cpu'.memory = cpu.memory) := by
  unfold single_data_transfer_instruction at h
  by_cases hpc : PC = get_bits instruction 12 4
  · rw [if_pos hpc] at h
    exact absurd h (by simp)
  · rw [if_neg hpc] at h
    rw [hoff, Option.map_some'] at h
    rw [Option.some.injEq] at h
    dsimp only at h
    unfold transfer_memloc at hm
    rw [hoff, Option.map_some', Option.some.injEq] at hm
    have key : ∃ cpuA : CPU, cpuA.memory = cpu.memory ∧
        transfer_access cpuA memloc (get_bits instruction 12 4)
          (get_bit instruction 20) = (cpu', log) := by
      by_cases hp : get_bit instruction 24 = true
      · rw [if_pos hp] at h hm
        rw [hm] at h
        exact ⟨cpu, rfl, h⟩
      · rw [if_neg hp] at h hm
        rw [hm] at h
        exact ⟨cpu.set_register (get_bits instruction 16 4) (addU32 memloc offset), rfl, h⟩
    rcases key with ⟨cpuA, hmem, hacc⟩
    refine ⟨?_, ?_, ?_⟩
    · intro hd
      rw [transfer_access_gpio _ _ _ _ (by tauto)] at hacc
      rw [Prod.mk.injEq] at hacc
      refine ⟨hacc.2.symm, ?_, ?_⟩
      · rw [← hacc.1]
        split
        · rw [set_register_memory]
          exact hmem
        · exact hmem
      · intro hl
        rw [← hacc.1, if_pos hl]
        exact set_register_get_same _ _ _
    · intro hd hl
      rw [hd, hl] at hacc
      rw [transfer_access_pinOn] at hacc
      rw [Prod.mk.injEq] at hacc
      exact ⟨hacc.2.symm, by rw [← hacc.1]; exact hmem⟩
    · intro hd hl
      rw [hd, hl] at hacc
      rw [transfer_access_pinOff] at hacc
      rw [Prod.mk.injEq] at hacc
      exact ⟨hacc.2.symm, by rw [← hacc.1]; exact hmem⟩

/-- concrete machine for the claim C9 witness: r1 holds `0x2020001C`. -/
def pinCPU : CPU :=
  { cpu0 with registers := Function.update cpu0.registers (regFin 1) 0x2020001C }

/-- Claim C9 witness: the GPIO semantics applied to the pre-indexed
store `0x05812000` (str r2, [r1]) with r1 = `0x2020001C`: PIN ON is
logged and memory is unchanged. -/
theorem gpio_transfer_semantics_witness :
    transfer_offset pinCPU 0x05812000 = some 0 ∧
    transfer_memloc pinCPU 0x05812000 = some 0x2020001C ∧
    single_data_transfer_instruction pinCPU 0x05812000 =
      some (pinCPU, [LogEvent.pinOn]) ∧
    ((0x2020001C : ℕ) = 0x2020001C → get_bit 0x05812000 20 = false →
      [LogEvent.pinOn] = [LogEvent.pinOn] ∧ pinCPU.memory = pinCPU.memory) :=
  ⟨rfl, rfl, rfl,
    (gpio_transfer_semantics pinCPU pinCPU 0x05812000 0 0x2020001C
      [LogEvent.pinOn] rfl rfl rfl).2.1⟩

end Arm11
